import Mathlib

/-!
Verification development for the jc2mouse input-translation pipeline
(src/jc2mouse/driver.py).  The Python driver is shallowly embedded:

* byte frames are `List ℕ` (each entry one byte);
* Python floats are modelled as exact rationals `ℚ`;
* wall-clock timestamps are rationals;
* the few genuinely irrational quantities produced by the source
  (the square root in the motion pump, the `norm ** 1.6` scroll curve)
  are passed to the embedded functions as explicit arguments, and the
  theorems constrain them by their defining property where it matters.

All definitions are translated from the source file; line references in
the doc comments point into driver.py.
-/

namespace JC2

/-- Embeds `clamp` (driver.py:173-174): `lo if v < lo else hi if v > hi else v`. -/
def qclamp (v lo hi : ℚ) : ℚ :=
  if v < lo then lo else if hi < v then hi else v

/-- Integer version of `clamp` for the places where the source clamps an
already-integral value (the hi-res wheel units). -/
def iclamp (v lo hi : ℤ) : ℤ :=
  if v < lo then lo else if hi < v then hi else v

/-- Python `int()` applied to a float: truncation toward zero. -/
def qtrunc (q : ℚ) : ℤ :=
  if 0 ≤ q then ⌊q⌋ else ⌈q⌉

/-- Python 3 `round()` to an integer: round half to even. -/
def pyRound (q : ℚ) : ℤ :=
  let f : ℤ := ⌊q⌋
  let r : ℚ := q - (f : ℚ)
  if r < 1/2 then f
  else if 1/2 < r then f + 1
  else if f % 2 = 0 then f else f + 1

/-- Embeds `btn_pressed` (driver.py:169-170):
`len(data) > byte_idx and (data[byte_idx] & mask) != 0`. -/
def btn_pressed (data : List ℕ) (byteIdx mask : ℕ) : Bool :=
  decide (byteIdx < data.length) && decide (data.getD byteIdx 0 &&& mask ≠ 0)

/-- Embeds `u16_from_opt` (driver.py:177-178): little-endian 16-bit read from the
optical slice. -/
def u16_from_opt (opt : List ℕ) (loIdx hiIdx : ℕ) : ℕ :=
  opt.getD loIdx 0 ||| (opt.getD hiIdx 0 <<< 8)

/-- Embeds `delta_u16` (driver.py:181-183):
`d = (curr - prev) & 0xFFFF; return d - 0x10000 if d > 0x7FFF else d`.
Python `&` with `0xFFFF` on a possibly negative int is the nonnegative
remainder mod `2^16`, which is `Int.emod` in Lean. -/
def delta_u16 (curr prev : ℤ) : ℤ :=
  let d := (curr - prev) % 65536
  if d > 32767 then d - 65536 else d

/-- Embeds `decode_stick_12` (driver.py:186-195):
`x = b0 | ((b1 & 0x0F) << 8); y = (b1 >> 4) | (b2 << 4)`. -/
def decode_stick_12 (b0 b1 b2 : ℕ) : ℕ × ℕ :=
  (b0 ||| ((b1 &&& 0x0F) <<< 8), (b1 >>> 4) ||| (b2 <<< 4))

/-- C7: for every `prev ∈ [0, 2^16)` and every true signed change
`δ ∈ [-2^15, 2^15)`, `delta_u16 ((prev + δ) mod 2^16) prev = δ`; moreover
`delta_u16` always returns a value in `[-2^15, 2^15)`. -/
theorem delta_u16_wrap_correct :
    (∀ prev δ : ℤ, 0 ≤ prev → prev < 65536 → -32768 ≤ δ → δ < 32768 →
      delta_u16 ((prev + δ) % 65536) prev = δ) ∧
    (∀ curr prev : ℤ,
      -32768 ≤ delta_u16 curr prev ∧ delta_u16 curr prev < 32768) := by
  constructor
  · intro prev δ h0 h1 h2 h3
    simp only [delta_u16]
    split <;> omega
  · intro curr prev
    simp only [delta_u16]
    constructor <;> (split <;> omega)

/-- Witness for C7 at a wrapping input: `prev = 65000`, `δ = 1000`
(the 16-bit counter wraps through zero) and a concrete range check. -/
theorem delta_u16_wrap_correct_witness :
    delta_u16 ((65000 + 1000) % 65536) 65000 = 1000 ∧
    -32768 ≤ delta_u16 16 65000 ∧ delta_u16 16 65000 < 32768 :=
  ⟨delta_u16_wrap_correct.1 65000 1000 (by decide) (by decide) (by decide)
      (by decide),
    delta_u16_wrap_correct.2 16 65000⟩

/-! ## Scroll path (`_emit_scroll_from_stick`, driver.py:784-823) -/

/-- The normalised stick deflection computed in `_emit_scroll_from_stick`
(driver.py:800-801):
`mag = min(|dy|, 2048); norm = clamp((mag - 70) / max(1, 2048 - 70), 0, 1)`. -/
def scroll_norm (dy : ℤ) : ℚ :=
  let mag : ℚ := min (|dy| : ℚ) 2048
  qclamp ((mag - 70) / max 1 (2048 - 70)) 0 1

/-- Result of one `_emit_scroll_from_stick` call: the hi-res wheel units
written (0 when nothing written), the low-res wheel step written, the new
`_wheel_accum`, and the returned `wrote` flag. -/
structure ScrollOut where
  hires : ℤ
  step : ℤ
  wheelAccum : ℚ
  wrote : Bool
  deriving DecidableEq, Repr

/-- The emission block of `_emit_scroll_from_stick` (driver.py:807-823),
as a function of the post-increment `_wheel_accum` value `wa`:
`hires_units = int(wa * 120)` then `int(clamp(hires_units, -360, 360))`;
if non-zero it is written and `hires_units / 120` subtracted; then
`step = int(clamp(wheel_accum, -3, 3))`; if non-zero it is written and
subtracted. -/
def scroll_emit_core (wa : ℚ) : ScrollOut :=
  let hires := iclamp (qtrunc (wa * 120)) (-360) 360
  let wa1 := if hires ≠ 0 then wa - (hires : ℚ) / 120 else wa
  let step := qtrunc (qclamp wa1 (-3) 3)
  let wa2 := if step ≠ 0 then wa1 - (step : ℚ) else wa1
  ⟨hires, step, wa2, decide (hires ≠ 0) || decide (step ≠ 0)⟩

/-- Embeds `_emit_scroll_from_stick` (driver.py:784-823) for one mouse-mode stick
frame.  `wa0` is the incoming `_wheel_accum`, `dy = y12 - cy`, `dt` the
clamped `_last_notif_dt`.  `curvePow` stands for `norm ** 1.6`, which the
source computes in floating point; it is irrational for general `norm`, so
it is passed explicitly and theorems pin it down where needed (at full
deflection `scroll_norm = 1` and `curvePow = 1 ** 1.6 = 1` exactly). -/
def emit_scroll_from_stick (wa0 : ℚ) (dy : ℤ) (dt curvePow : ℚ) : ScrollOut :=
  if |dy| ≤ 70 then ⟨0, 0, wa0, false⟩
  else
    let speed : ℚ := curvePow * 20
    let dir : ℚ := if 0 < dy then 1 else -1
    scroll_emit_core (wa0 + dir * speed * dt)

/-- Lemma: `qclamp` lands in the interval when the bounds are ordered. -/
theorem qclamp_mem (v lo hi : ℚ) (h : lo ≤ hi) :
    lo ≤ qclamp v lo hi ∧ qclamp v lo hi ≤ hi := by
  simp only [qclamp]
  split <;> [skip; split] <;> constructor <;> linarith

/-- Lemma: `iclamp` lands in the interval when the bounds are ordered. -/
theorem iclamp_mem (v lo hi : ℤ) (h : lo ≤ hi) :
    lo ≤ iclamp v lo hi ∧ iclamp v lo hi ≤ hi := by
  simp only [iclamp]
  split <;> [skip; split] <;> omega

/-- Truncation toward zero stays inside a symmetric interval around 0. -/
theorem qtrunc_mem (q : ℚ) (n : ℤ) (h0 : 0 ≤ n) (hlo : -(n : ℚ) ≤ q)
    (hhi : q ≤ (n : ℚ)) : -n ≤ qtrunc q ∧ qtrunc q ≤ n := by
  simp only [qtrunc]
  split
  · have hq : (0 : ℚ) ≤ q := by assumption
    have h1 : (0 : ℤ) ≤ ⌊q⌋ := Int.floor_nonneg.mpr hq
    have h2 : ⌊q⌋ ≤ ⌊(n : ℚ)⌋ := Int.floor_le_floor hhi
    simp only [Int.floor_intCast] at h2
    exact ⟨by omega, h2⟩
  · have hq : q ≤ 0 := le_of_not_le (by assumption)
    have h1 : ⌈q⌉ ≤ ⌈(0 : ℚ)⌉ := Int.ceil_le_ceil hq
    simp only [Int.ceil_zero] at h1
    have h2 : ⌈((-n : ℤ) : ℚ)⌉ ≤ ⌈q⌉ := Int.ceil_le_ceil (by push_cast; exact hlo)
    simp only [Int.ceil_intCast] at h2
    exact ⟨h2, by omega⟩

/-- Projection of the hi-res amount out of the emission block. -/
theorem scroll_emit_core_hires (wa : ℚ) :
    (scroll_emit_core wa).hires = iclamp (qtrunc (wa * 120)) (-360) 360 := rfl

/-- Projection of the low-res step out of the emission block. -/
theorem scroll_emit_core_step (wa : ℚ) :
    (scroll_emit_core wa).step =
      qtrunc (qclamp (wa - ((scroll_emit_core wa).hires : ℚ) / 120) (-3) 3) := by
  simp only [scroll_emit_core]
  split <;> simp_all

/-- The final accumulator of the emission block subtracts exactly what was
emitted. -/
theorem scroll_emit_core_accum (wa : ℚ) :
    (scroll_emit_core wa).wheelAccum =
      wa - ((scroll_emit_core wa).hires : ℚ) / 120
         - ((scroll_emit_core wa).step : ℚ) := by
  simp only [scroll_emit_core]
  split <;> split <;> simp_all

/-- C3 counterexample: the source truncates (`int(...)`) where the claim
says `round(...)`.  With incoming `_wheel_accum = -7/100`, full deflection
`dy = 2048` (so `scroll_norm 2048 = 1` and the 1.6-power curve value is
exactly `1 ** 1.6 = 1`) and `dt = 1/240`, the post-increment accumulator
is `1/75`; `(1/75)·120 = 8/5`, whose rounding is 2, but the code emits
`int(8/5) = 1` hi-res units. -/
theorem scroll_hires_truncates_not_rounds :
    scroll_norm 2048 = 1 ∧
    (emit_scroll_from_stick (-7/100) 2048 (1/240) 1).hires = 1 ∧
    pyRound (((-7 : ℚ)/100 + 1 * (1 * 20) * (1/240)) * 120) = 2 := by
  have hf : ⌊(8 : ℚ)/5⌋ = 1 := by
    rw [Int.floor_eq_iff] <;> norm_num
  refine ⟨by norm_num [scroll_norm, qclamp], ?_, ?_⟩
  · rw [emit_scroll_from_stick, if_neg (by decide), scroll_emit_core_hires]
    have harg : (((-7 : ℚ)/100) +
        (if (0:ℤ) < 2048 then (1:ℚ) else -1) * (1 * 20) * (1/240)) * 120 = 8/5 := by
      norm_num
    rw [harg]
    simp only [qtrunc, if_pos (show (0:ℚ) ≤ 8/5 by norm_num), hf]
    decide
  · have harg2 : (((-7 : ℚ)/100) + 1 * (1 * 20) * (1/240)) * 120 = 8/5 := by
      norm_num
    rw [harg2]
    simp only [pyRound, hf]
    norm_num

/-- C3 amended: on a mouse-mode stick frame with `|dy|` above the 70-unit
deadzone the source runs the emission block on the post-increment
accumulator `wa = wa0 + dir·(curvePow·20)·dt`, and the emission block
satisfies: the emitted hi-res amount is `trunc(wa·120)` (truncation toward
zero, not rounding) clamped to ±360; exactly the emitted fraction
`hires/120` is subtracted; the low-res step is `trunc` of the remaining
accumulator clamped to ±3 and is subtracted exactly, so the final
accumulator is `wa - hires/120 - step`; and both clamps hold. -/
theorem scroll_emit_exact :
    (∀ (wa0 : ℚ) (dy : ℤ) (dt curvePow : ℚ), 70 < |dy| →
      emit_scroll_from_stick wa0 dy dt curvePow =
        scroll_emit_core
          (wa0 + (if 0 < dy then (1:ℚ) else -1) * (curvePow * 20) * dt)) ∧
    (∀ wa : ℚ,
      (scroll_emit_core wa).hires = iclamp (qtrunc (wa * 120)) (-360) 360 ∧
      (scroll_emit_core wa).step =
        qtrunc (qclamp (wa - ((scroll_emit_core wa).hires : ℚ) / 120) (-3) 3) ∧
      (scroll_emit_core wa).wheelAccum =
        wa - ((scroll_emit_core wa).hires : ℚ) / 120
           - ((scroll_emit_core wa).step : ℚ) ∧
      |(scroll_emit_core wa).hires| ≤ 360 ∧
      |(scroll_emit_core wa).step| ≤ 3) := by
  constructor
  · intro wa0 dy dt curvePow hdy
    rw [emit_scroll_from_stick, if_neg (not_le.mpr hdy)]
  · intro wa
    have hb : |(scroll_emit_core wa).hires| ≤ 360 := by
      rw [scroll_emit_core_hires, abs_le]
      exact iclamp_mem _ _ _ (by norm_num)
    refine ⟨scroll_emit_core_hires wa, scroll_emit_core_step wa,
      scroll_emit_core_accum wa, hb, ?_⟩
    rw [scroll_emit_core_step wa, abs_le]
    have hq := qclamp_mem (wa - ((scroll_emit_core wa).hires : ℚ) / 120)
      (-3) 3 (by norm_num)
    have := qtrunc_mem (qclamp (wa - ((scroll_emit_core wa).hires : ℚ) / 120)
        (-3) 3) 3 (by norm_num) (by exact_mod_cast hq.1) (by exact_mod_cast hq.2)
    exact_mod_cast this

/-- Witness for C3 amended: the gate hypothesis discharged at `dy = 100`,
and the core identities evaluated at `wa = 1/2`. -/
theorem scroll_emit_exact_witness :
    emit_scroll_from_stick 0 100 (1/40) (1/2) =
      scroll_emit_core ((0:ℚ) + (if (0:ℤ) < 100 then (1:ℚ) else -1) * ((1/2) * 20) * (1/40)) ∧
    |(scroll_emit_core (1/2)).step| ≤ 3 :=
  ⟨scroll_emit_exact.1 0 100 (1/40) (1/2) (by decide),
   (scroll_emit_exact.2 (1/2)).2.2.2.2⟩

/-! ## Motion processor and pump (`_handle_optical_motion` driver.py:1217-1259,
`start_motion_pump` driver.py:1261-1331) -/

/-- The driver mode, `self.mode` (driver.py:231): `"mouse"` or `"gamepad"`,
initial value mouse. -/
inductive Mode
  | mouse
  | gamepad
  deriving DecidableEq, Repr

/-- The motion-backlog slice of the driver state:
`_dx_accum`, `_dy_accum`, `_last_motion_ts` (driver.py:278-280). -/
structure MState where
  dxAccum : ℚ
  dyAccum : ℚ
  lastMotionTs : ℚ
  deriving DecidableEq, Repr

/-- The backlog-update tail of `_handle_optical_motion`
(driver.py:1240-1259), starting from the wrap-deltas `dx, dy` (the
`INVERT_X`/`INVERT_Y` flags are `False` so the inversions are no-ops):
deadzone `|d| ≤ 2 → 0`; if either is non-zero set `_last_motion_ts = now`,
scale by sensitivity 1.0 and clamp to ±200, and add into the backlog when
the clamped pair is non-zero. -/
def contribute (s : MState) (dx dy : ℤ) (now : ℚ) : MState :=
  let dx := if |dx| ≤ 2 then 0 else dx
  let dy := if |dy| ≤ 2 then 0 else dy
  if dx ≠ 0 ∨ dy ≠ 0 then
    let mdx : ℚ := qclamp ((dx : ℚ) * 1) (-200) 200
    let mdy : ℚ := qclamp ((dy : ℚ) * 1) (-200) 200
    if mdx ≠ 0 ∨ mdy ≠ 0 then
      { dxAccum := s.dxAccum + mdx, dyAccum := s.dyAccum + mdy,
        lastMotionTs := now }
    else { s with lastMotionTs := now }
  else s

/-- The post-deadzone clamped delta pair that one `_handle_optical_motion`
call adds to the backlog (`(0, 0)` when the gates reject the frame). -/
def contribDelta (dx dy : ℤ) : ℚ × ℚ :=
  let dx := if |dx| ≤ 2 then 0 else dx
  let dy := if |dy| ≤ 2 then 0 else dy
  if dx ≠ 0 ∨ dy ≠ 0 then
    let mdx : ℚ := qclamp ((dx : ℚ) * 1) (-200) 200
    let mdy : ℚ := qclamp ((dy : ℚ) * 1) (-200) 200
    if mdx ≠ 0 ∨ mdy ≠ 0 then (mdx, mdy) else (0, 0)
  else (0, 0)

/-- The emission tail of one pump tick (driver.py:1303-1329), for
post-brake accumulators.  `mag` stands for the floating-point
`(ax² + ay²) ** 0.5`, which is irrational in general; it is passed
explicitly and the concrete theorems instantiate it with the true root.
`per_tick = clamp(mag·0.25, 1, 60)`; if `mag > 0`, scale to
`(ax, ay)·per/mag`, round to integers; if both are zero continue;
otherwise emit and subtract exactly the emitted integers. -/
def emitStage (s : MState) (mag : ℚ) : MState × ℤ × ℤ :=
  let ax := s.dxAccum
  let ay := s.dyAccum
  let per := qclamp (mag * (1/4)) 1 60
  let outDx := if 0 < mag then ax * (per / mag) else 0
  let outDy := if 0 < mag then ay * (per / mag) else 0
  let ix := pyRound outDx
  let iy := pyRound outDy
  if ix = 0 ∧ iy = 0 then (s, 0, 0)
  else ({ s with dxAccum := s.dxAccum - (ix : ℚ),
                 dyAccum := s.dyAccum - (iy : ℚ) }, ix, iy)

/-- One iteration of the motion-pump loop body (driver.py:1273-1329),
returning the new backlog state and the emitted `(REL_X, REL_Y)` pair
(`(0, 0)` on the `continue` paths): skip unless mouse mode; skip when both
accumulators are below 0.1; if more than 60 ms have passed since
`_last_motion_ts`, multiply both accumulators by 0.35 and zero any axis
whose braked magnitude is below 1, then skip when both are below 0.1;
finally run the emission tail. -/
def pumpTick (mode : Mode) (s : MState) (now mag : ℚ) : MState × ℤ × ℤ :=
  if mode ≠ Mode.mouse then (s, 0, 0)
  else if |s.dxAccum| < 1/10 ∧ |s.dyAccum| < 1/10 then (s, 0, 0)
  else if now - s.lastMotionTs > 3/50 then
    let bdx0 := s.dxAccum * (7/20)
    let bdy0 := s.dyAccum * (7/20)
    let bdx := if |bdx0| < 1 then 0 else bdx0
    let bdy := if |bdy0| < 1 then 0 else bdy0
    let s' : MState := { s with dxAccum := bdx, dyAccum := bdy }
    if |s'.dxAccum| < 1/10 ∧ |s'.dyAccum| < 1/10 then (s', 0, 0)
    else emitStage s' mag
  else emitStage s mag

/-- An event in a window: an optical frame contributing wrap-deltas
`(dx, dy)` at time `now`, or one pump tick at time `now` whose
floating-point magnitude oracle is `mag`. -/
inductive MEvent
  | frame (dx dy : ℤ) (now : ℚ)
  | tick (now mag : ℚ)
  deriving DecidableEq, Repr

/-- Run a window of events, returning the final backlog state, the summed
contributed deltas, and the summed emitted `REL_X`/`REL_Y` integers. -/
def runMotion (mode : Mode) : MState → List MEvent → MState × (ℚ × ℚ) × (ℤ × ℤ)
  | s, [] => (s, (0, 0), (0, 0))
  | s, MEvent.frame dx dy now :: rest =>
      let c := contribDelta dx dy
      let r := runMotion mode (contribute s dx dy now) rest
      (r.1, (c.1 + r.2.1.1, c.2 + r.2.1.2), r.2.2)
  | s, MEvent.tick now mag :: rest =>
      let e := pumpTick mode s now mag
      let r := runMotion mode e.1 rest
      (r.1, r.2.1, (e.2.1 + r.2.2.1, e.2.2 + r.2.2.2))

/-- A pump tick at `now` from state `s` would reach the idle-brake branch:
the accumulators are not both below 0.1 and more than 60 ms have passed
since the last motion. -/
def tickBrakes (s : MState) (now : ℚ) : Bool :=
  !(decide (|s.dxAccum| < 1/10) && decide (|s.dyAccum| < 1/10)) &&
    decide (now - s.lastMotionTs > 3/50)

/-- No tick of the window hits the idle-brake branch: the window is
non-idle throughout. -/
def noBrakeRun (mode : Mode) : MState → List MEvent → Bool
  | _, [] => true
  | s, MEvent.frame dx dy now :: rest =>
      noBrakeRun mode (contribute s dx dy now) rest
  | s, MEvent.tick now mag :: rest =>
      !(tickBrakes s now) && noBrakeRun mode (pumpTick mode s now mag).1 rest

/-- One optical frame changes the backlog by exactly `contribDelta`. -/
theorem contribute_accum (s : MState) (dx dy : ℤ) (now : ℚ) :
    (contribute s dx dy now).dxAccum = s.dxAccum + (contribDelta dx dy).1 ∧
    (contribute s dx dy now).dyAccum = s.dyAccum + (contribDelta dx dy).2 := by
  simp only [contribute, contribDelta]
  split_ifs <;> simp

/-- A non-braking pump tick subtracts exactly the integers it emitted. -/
theorem pumpTick_nobrake_sub (s : MState) (now mag : ℚ)
    (h : tickBrakes s now = false) :
    (pumpTick Mode.mouse s now mag).1.dxAccum
        = s.dxAccum - ((pumpTick Mode.mouse s now mag).2.1 : ℚ) ∧
    (pumpTick Mode.mouse s now mag).1.dyAccum
        = s.dyAccum - ((pumpTick Mode.mouse s now mag).2.2 : ℚ) := by
  simp only [tickBrakes, Bool.and_eq_false_iff, Bool.not_eq_false',
    Bool.and_eq_true, decide_eq_true_eq, decide_eq_false_iff_not] at h
  simp only [pumpTick, emitStage]
  split_ifs with h1 h2 h3 h4 h5 h6 <;> simp_all

/-- Over a window with no idle-braking tick, the backlog accounts exactly
for contributions minus emissions, per axis. -/
theorem runMotion_conserves (evts : List MEvent) : ∀ s : MState,
    noBrakeRun Mode.mouse s evts = true →
    (runMotion Mode.mouse s evts).1.dxAccum
      = s.dxAccum + (runMotion Mode.mouse s evts).2.1.1
        - ((runMotion Mode.mouse s evts).2.2.1 : ℚ) ∧
    (runMotion Mode.mouse s evts).1.dyAccum
      = s.dyAccum + (runMotion Mode.mouse s evts).2.1.2
        - ((runMotion Mode.mouse s evts).2.2.2 : ℚ) := by
  induction evts with
  | nil => intro s _; simp [runMotion]
  | cons ev rest ih =>
    intro s h
    cases ev with
    | frame dx dy now =>
      simp only [noBrakeRun] at h
      obtain ⟨ih1, ih2⟩ := ih _ h
      have hc := contribute_accum s dx dy now
      simp only [runMotion]
      constructor
      · rw [ih1, hc.1]; ring
      · rw [ih2, hc.2]; ring
    | tick now mag =>
      simp only [noBrakeRun, Bool.and_eq_true, Bool.not_eq_true'] at h
      obtain ⟨hnb, hrest⟩ := h
      obtain ⟨ih1, ih2⟩ := ih _ hrest
      have hp := pumpTick_nobrake_sub s now mag hnb
      simp only [runMotion]
      push_cast
      constructor
      · rw [ih1, hp.1]; ring
      · rw [ih2, hp.2]; ring

/-- Any state with both accumulator magnitudes below 0.1 is a fixpoint of
the pump: the tick emits nothing and changes nothing. -/
theorem pumpTick_small_fix (s : MState) (now mag : ℚ)
    (h1 : |s.dxAccum| < 1/10) (h2 : |s.dyAccum| < 1/10) :
    pumpTick Mode.mouse s now mag = (s, 0, 0) := by
  unfold pumpTick
  rw [if_neg (by simp), if_pos (And.intro h1 h2)]

/-- C4 counterexample.  First two conjuncts: the window
[contribute wrap-delta (10, 0) at t = 0; one pump tick at t = 1/20 s]
is non-idle throughout (`noBrakeRun` holds; the tick comes 50 ms < 60 ms
after the contribution), yet the summed contributed delta minus the summed
emitted `REL_X` is 8, not strictly less than 1: the pump drains only
`clamp(mag/4, 1, 60)` per tick.  (Before the tick the backlog is
`(10, 0)`, so the tick's true magnitude oracle is `√(10² + 0²) = 10`.)
Last two conjuncts: after the window [contribute (3, 0) at t = 0; braking
tick at t = 0.1 with magnitude `21/20`; tick at t = 0.2] the backlog is
stuck at `1/20 ≠ 0`, and a pump tick from that state (here at t = 10, long
past the 60 ms idle cutoff) returns it unchanged, so the residue converges
to `1/20`, not to 0. -/
theorem motion_conservation_counterexample :
    (runMotion Mode.mouse ⟨0, 0, 0⟩
        [MEvent.frame 10 0 0, MEvent.tick (1/20) 10]).2.1.1
      - ((runMotion Mode.mouse ⟨0, 0, 0⟩
        [MEvent.frame 10 0 0, MEvent.tick (1/20) 10]).2.2.1 : ℚ) = 8 ∧
    noBrakeRun Mode.mouse ⟨0, 0, 0⟩
        [MEvent.frame 10 0 0, MEvent.tick (1/20) 10] = true ∧
    (runMotion Mode.mouse ⟨0, 0, 0⟩
        [MEvent.frame 3 0 0, MEvent.tick (1/10) (21/20),
         MEvent.tick (2/10) (1/20)]).1.dxAccum = 1/20 ∧
    pumpTick Mode.mouse ⟨1/20, 0, 0⟩ 10 (1/20) = (⟨1/20, 0, 0⟩, 0, 0) := by
  have hc1 : contribute ⟨0, 0, 0⟩ 10 0 0 = ⟨10, 0, 0⟩ := by
    norm_num [contribute, qclamp]
  have hd1 : contribDelta 10 0 = (10, 0) := by
    norm_num [contribDelta, qclamp]
  have hfloor52 : ⌊(5 : ℚ)/2⌋ = 2 := by
    rw [Int.floor_eq_iff] <;> norm_num
  have ht1 : pumpTick Mode.mouse ⟨10, 0, 0⟩ (1/20) 10 = (⟨8, 0, 0⟩, 2, 0) := by
    have hper : qclamp (10 * (1/4)) 1 60 = 5/2 := by norm_num [qclamp]
    have hout : (10 : ℚ) * ((5/2) / 10) = 5/2 := by norm_num
    have hr1 : pyRound ((5 : ℚ)/2) = 2 := by
      simp only [pyRound, hfloor52]
      norm_num
    have hr0 : pyRound (0 : ℚ) = 0 := by
      norm_num [pyRound, Int.floor_zero]
    simp only [pumpTick, emitStage]
    norm_num [hper, hout, hr1, hr0, qclamp, pyRound]
  have hc2 : contribute ⟨0, 0, 0⟩ 3 0 0 = ⟨3, 0, 0⟩ := by
    norm_num [contribute, qclamp]
  have hr0 : pyRound (0 : ℚ) = 0 := by
    norm_num [pyRound, Int.floor_zero]
  have hr1 : pyRound (1 : ℚ) = 1 := by
    norm_num [pyRound, Int.floor_one]
  have ht2 : pumpTick Mode.mouse ⟨3, 0, 0⟩ (1/10) (21/20)
      = (⟨1/20, 0, 0⟩, 1, 0) := by
    have hper : qclamp ((21/20) * (1/4)) 1 60 = 1 := by norm_num [qclamp]
    have hout : (21/20 : ℚ) * (1 / (21/20)) = 1 := by norm_num
    have habs : ¬ (|(21 : ℚ)/20| < 1) := by rw [abs_lt]; norm_num
    simp only [pumpTick, emitStage]
    norm_num [habs, hper, hout, hr1, hr0, qclamp, abs_lt]
  have ht3 : pumpTick Mode.mouse ⟨1/20, 0, 0⟩ (2/10) (1/20)
      = (⟨1/20, 0, 0⟩, 0, 0) :=
    pumpTick_small_fix _ _ _ (by rw [abs_lt]; norm_num) (by rw [abs_lt]; norm_num)
  refine ⟨?_, ?_, ?_,
    pumpTick_small_fix _ _ _ (by rw [abs_lt]; norm_num) (by rw [abs_lt]; norm_num)⟩
  · simp only [runMotion, hc1, hd1, ht1]
    norm_num
  · simp only [noBrakeRun, hc1, tickBrakes]
    norm_num
  · simp only [runMotion, hc2, ht2, ht3]

/-- C4 amended: (i) over any window containing no idle-braking tick (the
non-idle case), the final backlog equals the initial backlog plus the
summed contributed post-deadzone clamped deltas minus the summed emitted
`REL_X`/`REL_Y` — the pump neither creates nor destroys motion, but the
per-axis residue is the whole undrained backlog, which is not in general
below 1; (ii) every non-braking pump tick subtracts exactly the integers
it emitted; (iii) any state with both accumulator magnitudes below 0.1 is
a fixpoint of the pump, so after ≥ 60 ms of idle the accumulators settle
at a value of magnitude below 0.1 that need not be 0. -/
theorem motion_conservation_amended :
    (∀ (s0 : MState) (evts : List MEvent),
      noBrakeRun Mode.mouse s0 evts = true →
      (runMotion Mode.mouse s0 evts).1.dxAccum
        = s0.dxAccum + (runMotion Mode.mouse s0 evts).2.1.1
          - ((runMotion Mode.mouse s0 evts).2.2.1 : ℚ) ∧
      (runMotion Mode.mouse s0 evts).1.dyAccum
        = s0.dyAccum + (runMotion Mode.mouse s0 evts).2.1.2
          - ((runMotion Mode.mouse s0 evts).2.2.2 : ℚ)) ∧
    (∀ (s : MState) (now mag : ℚ), tickBrakes s now = false →
      (pumpTick Mode.mouse s now mag).1.dxAccum
          = s.dxAccum - ((pumpTick Mode.mouse s now mag).2.1 : ℚ) ∧
      (pumpTick Mode.mouse s now mag).1.dyAccum
          = s.dyAccum - ((pumpTick Mode.mouse s now mag).2.2 : ℚ)) ∧
    (∀ (s : MState) (now mag : ℚ),
      |s.dxAccum| < 1/10 → |s.dyAccum| < 1/10 →
      pumpTick Mode.mouse s now mag = (s, 0, 0)) :=
  ⟨fun s0 evts h => runMotion_conserves evts s0 h,
   pumpTick_nobrake_sub,
   pumpTick_small_fix⟩

/-- Witness for C4 amended: the conservation part on the concrete window
[contribute (10, 0); non-idle tick], the per-tick part at that tick, and
the fixpoint part at backlog `(1/20, 0)`. -/
theorem motion_conservation_amended_witness :
    ((runMotion Mode.mouse ⟨0, 0, 0⟩
        [MEvent.frame 10 0 0, MEvent.tick (1/20) 10]).1.dxAccum
      = (0 : ℚ) + (runMotion Mode.mouse ⟨0, 0, 0⟩
          [MEvent.frame 10 0 0, MEvent.tick (1/20) 10]).2.1.1
        - ((runMotion Mode.mouse ⟨0, 0, 0⟩
          [MEvent.frame 10 0 0, MEvent.tick (1/20) 10]).2.2.1 : ℚ)) ∧
    pumpTick Mode.mouse ⟨1/20, 0, 0⟩ 7 1 = (⟨1/20, 0, 0⟩, 0, 0) :=
  ⟨(motion_conservation_amended.1 ⟨0, 0, 0⟩
      [MEvent.frame 10 0 0, MEvent.tick (1/20) 10]
      (by norm_num [noBrakeRun, contribute, qclamp, tickBrakes])).1,
   motion_conservation_amended.2.2 ⟨1/20, 0, 0⟩ 7 1
      (by rw [abs_lt]; norm_num) (by rw [abs_lt]; norm_num)⟩

/-! ## Mode controller, button dispatch and the two virtual sinks
(driver.py:668-719, 875-1179) -/

/-- Mouse-sink buttons: `BTN_LEFT`, `BTN_RIGHT`, `BTN_MIDDLE`. -/
inductive MBtn
  | left
  | right
  | middle
  deriving DecidableEq, Repr

/-- Gamepad-sink logical buttons tracked in `self._gp_prev`
(driver.py:298-313). -/
inductive GBtn
  | south
  | east
  | north
  | west
  | tl
  | tr
  | select
  | start
  | mode
  | thumb
  | dup
  | ddown
  | dleft
  | dright
  deriving DecidableEq, Repr

/-- An event written to one of the two virtual input sinks. -/
inductive Ev
  | mouseKey (b : MBtn) (down : Bool)
  | mouseSyn
  | padKey (b : GBtn) (down : Bool)
  | padAbsX (v : ℤ)
  | padAbsY (v : ℤ)
  | padSyn
  deriving DecidableEq, Repr

/-- The mode/button slice of the driver state: `self.mode`,
`self._prev_mode_btn`, the left-chord fields (driver.py:224-232), the
mouse edge-tracking booleans (driver.py:290-292), the gamepad edge map
(driver.py:298-313), the motion/scroll accumulators and
`_last_opt_active_ts`. -/
structure Drv where
  mode : Mode
  prevModeBtn : Bool
  leftHoldStart : ℚ
  leftHoldLatched : Bool
  leftToggleHoldActive : Bool
  prevLeft : Bool
  prevRight : Bool
  prevMiddle : Bool
  gpPrev : GBtn → Bool
  dxAccum : ℚ
  dyAccum : ℚ
  wheelAccum : ℚ
  lastOptActiveTs : ℚ

/-- The state right after `JC2OpticalMouse.__init__` (driver.py:203-313):
mouse mode, no button pressed, all accumulators zero. -/
def initialDrv : Drv where
  mode := Mode.mouse
  prevModeBtn := false
  leftHoldStart := 0
  leftHoldLatched := false
  leftToggleHoldActive := false
  prevLeft := false
  prevRight := false
  prevMiddle := false
  gpPrev := fun _ => false
  dxAccum := 0
  dyAccum := 0
  wheelAccum := 0
  lastOptActiveTs := 0

/-- Embeds `_release_mouse_buttons` (driver.py:686-694): write release (0) for
LEFT, RIGHT, MIDDLE on the mouse sink, sync, clear the edge trackers. -/
def release_mouse_buttons (s : Drv) : Drv × List Ev :=
  ({ s with prevLeft := false, prevRight := false, prevMiddle := false },
   [Ev.mouseKey MBtn.left false, Ev.mouseKey MBtn.right false,
    Ev.mouseKey MBtn.middle false, Ev.mouseSyn])

/-- Embeds `_release_gamepad_buttons` (driver.py:696-719): write release (0) for
all 14 tracked gamepad buttons, center both sticks at 32768, sync, clear
the edge map. -/
def release_gamepad_buttons (s : Drv) : Drv × List Ev :=
  ({ s with gpPrev := fun _ => false },
   [Ev.padKey GBtn.south false, Ev.padKey GBtn.east false,
    Ev.padKey GBtn.north false, Ev.padKey GBtn.west false,
    Ev.padKey GBtn.tl false, Ev.padKey GBtn.tr false,
    Ev.padKey GBtn.select false, Ev.padKey GBtn.start false,
    Ev.padKey GBtn.mode false, Ev.padKey GBtn.thumb false,
    Ev.padKey GBtn.dup false, Ev.padKey GBtn.ddown false,
    Ev.padKey GBtn.dleft false, Ev.padKey GBtn.dright false,
    Ev.padAbsX 32768, Ev.padAbsY 32768, Ev.padSyn])

/-- Embeds `_set_mode` (driver.py:670-684): no-op when the mode is unchanged;
otherwise release every button on both sinks, zero `_dx_accum`,
`_dy_accum`, `_wheel_accum`, and install the new mode. -/
def set_mode (s : Drv) (newMode : Mode) : Drv × List Ev :=
  if newMode = s.mode then (s, [])
  else
    let r1 := release_mouse_buttons s
    let r2 := release_gamepad_buttons r1.1
    ({ r2.1 with
        dxAccum := 0
        dyAccum := 0
        wheelAccum := 0
        mode := newMode },
     r1.2 ++ r2.2)

/-- C5: on every mode change, release events are emitted for every tracked
logical button on both sinks (the event list is exactly the three mouse
releases + sync followed by the fourteen gamepad releases, stick
centering and sync), all last-emitted button states become released, and
`dx_accum`, `dy_accum`, `wheel_accum` are all set to zero. -/
theorem set_mode_releases_all (s : Drv) (m : Mode) (h : m ≠ s.mode) :
    (set_mode s m).1.prevLeft = false ∧
    (set_mode s m).1.prevRight = false ∧
    (set_mode s m).1.prevMiddle = false ∧
    (∀ b : GBtn, (set_mode s m).1.gpPrev b = false) ∧
    (set_mode s m).1.dxAccum = 0 ∧
    (set_mode s m).1.dyAccum = 0 ∧
    (set_mode s m).1.wheelAccum = 0 ∧
    (set_mode s m).1.mode = m ∧
    (set_mode s m).2 =
      [Ev.mouseKey MBtn.left false, Ev.mouseKey MBtn.right false,
       Ev.mouseKey MBtn.middle false, Ev.mouseSyn,
       Ev.padKey GBtn.south false, Ev.padKey GBtn.east false,
       Ev.padKey GBtn.north false, Ev.padKey GBtn.west false,
       Ev.padKey GBtn.tl false, Ev.padKey GBtn.tr false,
       Ev.padKey GBtn.select false, Ev.padKey GBtn.start false,
       Ev.padKey GBtn.mode false, Ev.padKey GBtn.thumb false,
       Ev.padKey GBtn.dup false, Ev.padKey GBtn.ddown false,
       Ev.padKey GBtn.dleft false, Ev.padKey GBtn.dright false,
       Ev.padAbsX 32768, Ev.padAbsY 32768, Ev.padSyn] := by
  simp [set_mode, release_mouse_buttons, release_gamepad_buttons, h]

/-- Witness for C5: switching the fresh driver state to gamepad. -/
theorem set_mode_releases_all_witness :
    (set_mode initialDrv Mode.gamepad).1.dxAccum = 0 ∧
    (set_mode initialDrv Mode.gamepad).1.mode = Mode.gamepad ∧
    (∀ b : GBtn, (set_mode initialDrv Mode.gamepad).1.gpPrev b = false) :=
  have h := set_mode_releases_all initialDrv Mode.gamepad (by decide)
  ⟨h.2.2.2.2.1, h.2.2.2.2.2.2.2.1, h.2.2.2.1⟩

/-- Embeds `_btn_misc` (driver.py:1178-1179): bit test on the configured misc
byte (index 5 for right and unknown sides, 5 for left as well). -/
def btn_misc (miscIdx : ℕ) (data : List ℕ) (mask : ℕ) : Bool :=
  decide (miscIdx < data.length) && decide (data.getD miscIdx 0 &&& mask ≠ 0)

/-- Embeds `_btn_face` (driver.py:1175-1176): bit test on the configured face
byte (index 4 for right/unknown, 6 for left). -/
def btn_face (faceIdx : ℕ) (data : List ℕ) (mask : ℕ) : Bool :=
  decide (faceIdx < data.length) && decide (data.getD faceIdx 0 &&& mask ≠ 0)

/-- The right/unknown-side mode-toggle fragment of `handle_notification`
(driver.py:907-915): read the C bit (misc byte, mask 0x40); on a rising
edge call `_set_mode` with the opposite mode and, when the new mode is
gamepad, stamp `_last_opt_active_ts = now`; finally store the bit in
`_prev_mode_btn`.  Returns the new state, the emitted events and whether a
mode transition happened. -/
def rightModeToggle (s : Drv) (data : List ℕ) (now : ℚ) : Drv × List Ev × Bool :=
  let modeBtn := btn_misc 5 data 0x40
  if modeBtn && !s.prevModeBtn then
    let r := set_mode s (if s.mode = Mode.mouse then Mode.gamepad else Mode.mouse)
    let s2 := if r.1.mode = Mode.gamepad then { r.1 with lastOptActiveTs := now } else r.1
    ({ s2 with prevModeBtn := modeBtn }, r.2, true)
  else ({ s with prevModeBtn := modeBtn }, [], false)

/-- Run the right-side toggle fragment over a sequence of frames,
collecting the per-frame transition flags. -/
def runRightToggle (s : Drv) : List (List ℕ × ℚ) → Drv × List Bool
  | [] => (s, [])
  | (d, t) :: rest =>
      let r := rightModeToggle s d t
      let rr := runRightToggle r.1 rest
      (rr.1, r.2.2 :: rr.2)

/-- C8: for any state and any four frames whose misc-byte C bit (mask
0x40) goes 0, 1, 1, 0, exactly one mode transition occurs, on the first
0→1 edge (the per-frame transition flags are `[false, true, false, false]`)
and the final mode is the single flip of the initial mode; moreover a
sustained 1 never re-toggles: with `_prev_mode_btn = true` and the bit
still 1 the fragment only stores the bit and emits nothing. -/
theorem right_toggle_edge :
    (∀ (s : Drv) (d1 d2 d3 d4 : List ℕ) (t1 t2 t3 t4 : ℚ),
      btn_misc 5 d1 0x40 = false → btn_misc 5 d2 0x40 = true →
      btn_misc 5 d3 0x40 = true → btn_misc 5 d4 0x40 = false →
      (runRightToggle s [(d1, t1), (d2, t2), (d3, t3), (d4, t4)]).2
          = [false, true, false, false] ∧
      (runRightToggle s [(d1, t1), (d2, t2), (d3, t3), (d4, t4)]).1.mode
          = (if s.mode = Mode.mouse then Mode.gamepad else Mode.mouse)) ∧
    (∀ (s : Drv) (d : List ℕ) (now : ℚ),
      s.prevModeBtn = true → btn_misc 5 d 0x40 = true →
      rightModeToggle s d now = ({ s with prevModeBtn := true }, [], false)) := by
  constructor
  · intro s d1 d2 d3 d4 t1 t2 t3 t4 h1 h2 h3 h4
    cases hm : s.mode <;>
      simp [runRightToggle, rightModeToggle, h1, h2, h3, h4, hm, set_mode,
        release_mouse_buttons, release_gamepad_buttons]
  · intro s d now hp hb
    simp [rightModeToggle, hp, hb]

/-- Witness for C8: concrete frames whose misc byte is
`0x00, 0x40, 0x40, 0x00`, starting from the fresh driver state, and the
sustained-1 fact from a pressed state. -/
theorem right_toggle_edge_witness :
    ((runRightToggle initialDrv
        [([0, 0, 0, 0, 0, 0x00], 1), ([0, 0, 0, 0, 0, 0x40], 2),
         ([0, 0, 0, 0, 0, 0x40], 3), ([0, 0, 0, 0, 0, 0x00], 4)]).2
      = [false, true, false, false]) ∧
    rightModeToggle { initialDrv with prevModeBtn := true }
        [0, 0, 0, 0, 0, 0x40] 9
      = ({ initialDrv with prevModeBtn := true }, [], false) :=
  ⟨(right_toggle_edge.1 initialDrv _ _ _ _ 1 2 3 4
      (by decide) (by decide) (by decide) (by decide)).1,
   right_toggle_edge.2 { initialDrv with prevModeBtn := true }
      [0, 0, 0, 0, 0, 0x40] 9 rfl (by decide)⟩

/-- The L+ZL chord bit test used by the left-side toggle
(driver.py:919): both bits of the face byte (index 6). -/
def chordHeld (data : List ℕ) : Bool :=
  btn_face 6 data 0x40 && btn_face 6 data 0x80

/-- The left-side mode-toggle fragment of `handle_notification`
(driver.py:917-937): track the L+ZL hold; on the first held frame stamp
`_left_hold_start = now`; once the hold has lasted ≥ 1.2 s latch and call
`_set_mode`; when the chord is released clear the start stamp and the
latch. -/
def leftModeToggle (s : Drv) (data : List ℕ) (now : ℚ) : Drv × List Ev × Bool :=
  let hold := chordHeld data
  let s1 := { s with leftToggleHoldActive := hold }
  let s2 := if !hold then { s1 with leftToggleHoldActive := false } else s1
  let r :=
    if hold && !s2.leftHoldLatched then
      if s2.leftHoldStart = 0 then
        ({ s2 with leftHoldStart := now }, ([] : List Ev), false)
      else if 6/5 ≤ now - s2.leftHoldStart then
        let s3 := { s2 with leftHoldLatched := true }
        let r4 := set_mode s3
          (if s3.mode = Mode.mouse then Mode.gamepad else Mode.mouse)
        let s5 := if r4.1.mode = Mode.gamepad
          then { r4.1 with lastOptActiveTs := now } else r4.1
        (s5, r4.2, true)
      else (s2, ([] : List Ev), false)
    else (s2, ([] : List Ev), false)
  let s6 := if !hold
    then { r.1 with leftHoldStart := 0, leftHoldLatched := false } else r.1
  (s6, r.2.1, r.2.2)

/-- The left-side mouse-mode click fragment (driver.py:1079-1107):
`L → left`, `ZL → right`, `L3 → middle`, with left and right suppressed
while the toggle chord is active; edge-triggered writes followed by a
sync.  (The optical-motion call interleaved here updates only the backlog
(`contribute`) and writes no events.) -/
def leftMouseButtons (s : Drv) (data : List ℕ) : Drv × List Ev :=
  let l3 := btn_misc 5 data 0x08
  let l := btn_face 6 data 0x40
  let zl := btn_face 6 data 0x80
  let left := if s.leftToggleHoldActive then false else l
  let right := if s.leftToggleHoldActive then false else zl
  let middle := l3
  let s1 := if left ≠ s.prevLeft then { s with prevLeft := left } else s
  let e1 : List Ev := if left ≠ s.prevLeft
    then [Ev.mouseKey MBtn.left left] else []
  let s2 := if right ≠ s1.prevRight then { s1 with prevRight := right } else s1
  let e2 : List Ev := if right ≠ s1.prevRight
    then [Ev.mouseKey MBtn.right right] else []
  let s3 := if middle ≠ s2.prevMiddle
    then { s2 with prevMiddle := middle } else s2
  let e3 : List Ev := if middle ≠ s2.prevMiddle
    then [Ev.mouseKey MBtn.middle middle] else []
  (s3, e1 ++ e2 ++ e3 ++ [Ev.mouseSyn])

/-- Embeds `emit_btn` (driver.py:1153-1157): edge-triggered gamepad key write. -/
def emitGp (s : Drv) (b : GBtn) (pressed : Bool) : Drv × List Ev :=
  if pressed ≠ s.gpPrev b then
    ({ s with gpPrev := fun bq => if bq = b then pressed else s.gpPrev bq },
     [Ev.padKey b pressed])
  else (s, [])

/-- The left-side gamepad-mode button fragment (driver.py:1109-1170):
d-pad rotated 90° with the X↔Y compatibility swap enabled
(`LCOMPAT_SWAP_WEST_NORTH = True`), SL/SR → TL/TR, MINUS → SELECT,
CAPTURE → START, L3 → THUMBL; L/ZL reserved for the chord and not
emitted; edge-triggered writes then a sync. -/
def leftGamepadButtons (s : Drv) (data : List ℕ) : Drv × List Ev :=
  let minus := btn_misc 5 data 0x01
  let l3 := btn_misc 5 data 0x08
  let capture := btn_misc 5 data 0x20
  let ddown := btn_face 6 data 0x01
  let dup := btn_face 6 data 0x02
  let dright := btn_face 6 data 0x04
  let dleft := btn_face 6 data 0x08
  let sr := btn_face 6 data 0x10
  let sl := btn_face 6 data 0x20
  let physUp := dright
  let physRight := ddown
  let physDown := dleft
  let physLeft := dup
  let gpSouth := physDown
  let gpEast := physRight
  let gpWest := physUp
  let gpNorth := physLeft
  let r1 := emitGp s GBtn.south gpSouth
  let r2 := emitGp r1.1 GBtn.east gpEast
  let r3 := emitGp r2.1 GBtn.west gpWest
  let r4 := emitGp r3.1 GBtn.north gpNorth
  let r5 := emitGp r4.1 GBtn.tl sl
  let r6 := emitGp r5.1 GBtn.tr sr
  let r7 := emitGp r6.1 GBtn.select minus
  let r8 := emitGp r7.1 GBtn.start capture
  let r9 := emitGp r8.1 GBtn.thumb l3
  (r9.1, r1.2 ++ r2.2 ++ r3.2 ++ r4.2 ++ r5.2 ++ r6.2 ++ r7.2 ++ r8.2
    ++ r9.2 ++ [Ev.padSyn])

/-- One left-side frame through `handle_notification`: the mode-toggle
fragment followed by the mode-dependent button fragment.  (The stick
stage between them emits only wheel/axis events, never mouse button keys,
and is modelled separately by `emit_scroll_from_stick`.) -/
def leftStep (s : Drv) (data : List ℕ) (now : ℚ) : Drv × List Ev × Bool :=
  let r1 := leftModeToggle s data now
  let r2 := if r1.1.mode = Mode.mouse then leftMouseButtons r1.1 data
            else leftGamepadButtons r1.1 data
  (r2.1, r1.2.1 ++ r2.2, r1.2.2)

/-- Run a sequence of left-side frames, collecting all events and the
number of mode transitions. -/
def runLeft (s : Drv) : List (List ℕ × ℚ) → Drv × List Ev × ℕ
  | [] => (s, [], 0)
  | (d, t) :: rest =>
      let r := leftStep s d t
      let rr := runLeft r.1 rest
      (rr.1, r.2.1 ++ rr.2.1, (if r.2.2 then 1 else 0) + rr.2.2)

/-- The click fragment never touches the hold-start stamp. -/
theorem leftMouseButtons_holdStart (s : Drv) (d : List ℕ) :
    (leftMouseButtons s d).1.leftHoldStart = s.leftHoldStart := by
  simp only [leftMouseButtons]
  split_ifs <;> rfl

/-- The click fragment never touches the hold latch. -/
theorem leftMouseButtons_holdLatched (s : Drv) (d : List ℕ) :
    (leftMouseButtons s d).1.leftHoldLatched = s.leftHoldLatched := by
  simp only [leftMouseButtons]
  split_ifs <;> rfl

/-- Lemma: `emit_btn` never touches the hold-start stamp. -/
theorem emitGp_holdStart (s : Drv) (b : GBtn) (p : Bool) :
    (emitGp s b p).1.leftHoldStart = s.leftHoldStart := by
  simp only [emitGp]
  split_ifs <;> rfl

/-- Lemma: `emit_btn` never touches the hold latch. -/
theorem emitGp_holdLatched (s : Drv) (b : GBtn) (p : Bool) :
    (emitGp s b p).1.leftHoldLatched = s.leftHoldLatched := by
  simp only [emitGp]
  split_ifs <;> rfl

/-- The gamepad button fragment never touches the hold-start stamp. -/
theorem leftGamepadButtons_holdStart (s : Drv) (d : List ℕ) :
    (leftGamepadButtons s d).1.leftHoldStart = s.leftHoldStart := by
  simp only [leftGamepadButtons, emitGp_holdStart]

/-- The gamepad button fragment never touches the hold latch. -/
theorem leftGamepadButtons_holdLatched (s : Drv) (d : List ℕ) :
    (leftGamepadButtons s d).1.leftHoldLatched = s.leftHoldLatched := by
  simp only [leftGamepadButtons, emitGp_holdLatched]

/-- With the chord held and the latch already set, the toggle fragment
only refreshes the chord-active flag: no transition, no events. -/
theorem leftModeToggle_latched (s : Drv) (d : List ℕ) (now : ℚ)
    (hc : chordHeld d = true) (hl : s.leftHoldLatched = true) :
    leftModeToggle s d now
      = ({ s with leftToggleHoldActive := true }, [], false) := by
  simp [leftModeToggle, hc, hl]

/-- With the chord held for the first frame (`_left_hold_start = 0`), the
fragment stamps the hold start and does not toggle. -/
theorem leftModeToggle_first (s : Drv) (d : List ℕ) (now : ℚ)
    (hc : chordHeld d = true) (hl : s.leftHoldLatched = false)
    (h0 : s.leftHoldStart = 0) :
    leftModeToggle s d now
      = ({ s with leftToggleHoldActive := true, leftHoldStart := now },
         [], false) := by
  simp [leftModeToggle, hc, hl, h0]

/-- With the chord held but the 1.2 s threshold not yet reached, the
fragment changes nothing but the chord-active flag. -/
theorem leftModeToggle_wait (s : Drv) (d : List ℕ) (now : ℚ)
    (hc : chordHeld d = true) (hl : s.leftHoldLatched = false)
    (h0 : ¬ s.leftHoldStart = 0) (hd : ¬ (6/5 ≤ now - s.leftHoldStart)) :
    leftModeToggle s d now
      = ({ s with leftToggleHoldActive := true }, [], false) := by
  simp [leftModeToggle, hc, hl, h0, hd]

/-- With the chord held for ≥ 1.2 s and the latch clear, the fragment
toggles the mode and sets the latch. -/
theorem leftModeToggle_fire (s : Drv) (d : List ℕ) (now : ℚ)
    (hc : chordHeld d = true) (hl : s.leftHoldLatched = false)
    (h0 : ¬ s.leftHoldStart = 0) (hd : 6/5 ≤ now - s.leftHoldStart) :
    (leftModeToggle s d now).2.2 = true ∧
    (leftModeToggle s d now).1.leftHoldLatched = true := by
  cases hm : s.mode <;>
    simp [leftModeToggle, hc, hl, h0, hd, hm, set_mode,
      release_mouse_buttons, release_gamepad_buttons]

/-- With the chord held, the toggle fragment leaves the chord-active flag
set. -/
theorem leftModeToggle_active (s : Drv) (d : List ℕ) (now : ℚ)
    (hc : chordHeld d = true) :
    (leftModeToggle s d now).1.leftToggleHoldActive = true := by
  simp only [leftModeToggle, hc]
  split_ifs <;>
    simp_all [set_mode, release_mouse_buttons, release_gamepad_buttons] <;>
    split_ifs <;> simp_all

/-- The transition flag of a full left-side frame is the toggle
fragment's flag. -/
theorem leftStep_flag (s : Drv) (d : List ℕ) (now : ℚ) :
    (leftStep s d now).2.2 = (leftModeToggle s d now).2.2 := rfl

/-- A full left-side frame preserves the hold fields produced by the
toggle fragment. -/
theorem leftStep_holdFields (s : Drv) (d : List ℕ) (now : ℚ) :
    (leftStep s d now).1.leftHoldStart
        = (leftModeToggle s d now).1.leftHoldStart ∧
    (leftStep s d now).1.leftHoldLatched
        = (leftModeToggle s d now).1.leftHoldLatched := by
  simp only [leftStep]
  split
  · exact ⟨leftMouseButtons_holdStart _ _, leftMouseButtons_holdLatched _ _⟩
  · exact ⟨leftGamepadButtons_holdStart _ _, leftGamepadButtons_holdLatched _ _⟩

/-- Latched step: no transition, latch stays set. -/
theorem leftStep_latched (s : Drv) (d : List ℕ) (now : ℚ)
    (hc : chordHeld d = true) (hl : s.leftHoldLatched = true) :
    (leftStep s d now).2.2 = false ∧
    (leftStep s d now).1.leftHoldLatched = true := by
  have h := leftModeToggle_latched s d now hc hl
  refine ⟨?_, ?_⟩
  · rw [leftStep_flag, h]
  · rw [(leftStep_holdFields s d now).2, h]
    exact hl

/-- First held frame: no transition, start stamped, latch still clear. -/
theorem leftStep_first (s : Drv) (d : List ℕ) (now : ℚ)
    (hc : chordHeld d = true) (hl : s.leftHoldLatched = false)
    (h0 : s.leftHoldStart = 0) :
    (leftStep s d now).2.2 = false ∧
    (leftStep s d now).1.leftHoldStart = now ∧
    (leftStep s d now).1.leftHoldLatched = false := by
  have h := leftModeToggle_first s d now hc hl h0
  refine ⟨?_, ?_, ?_⟩
  · rw [leftStep_flag, h]
  · rw [(leftStep_holdFields s d now).1, h]
  · rw [(leftStep_holdFields s d now).2, h]
    exact hl

/-- Held frame below the threshold: no transition, fields preserved. -/
theorem leftStep_wait (s : Drv) (d : List ℕ) (now : ℚ)
    (hc : chordHeld d = true) (hl : s.leftHoldLatched = false)
    (h0 : ¬ s.leftHoldStart = 0) (hd : ¬ (6/5 ≤ now - s.leftHoldStart)) :
    (leftStep s d now).2.2 = false ∧
    (leftStep s d now).1.leftHoldStart = s.leftHoldStart ∧
    (leftStep s d now).1.leftHoldLatched = false := by
  have h := leftModeToggle_wait s d now hc hl h0 hd
  refine ⟨?_, ?_, ?_⟩
  · rw [leftStep_flag, h]
  · rw [(leftStep_holdFields s d now).1, h]
  · rw [(leftStep_holdFields s d now).2, h]
    exact hl

/-- Held frame reaching the threshold: one transition, latch set. -/
theorem leftStep_fire (s : Drv) (d : List ℕ) (now : ℚ)
    (hc : chordHeld d = true) (hl : s.leftHoldLatched = false)
    (h0 : ¬ s.leftHoldStart = 0) (hd : 6/5 ≤ now - s.leftHoldStart) :
    (leftStep s d now).2.2 = true ∧
    (leftStep s d now).1.leftHoldLatched = true := by
  have h := leftModeToggle_fire s d now hc hl h0 hd
  refine ⟨?_, ?_⟩
  · rw [leftStep_flag]; exact h.1
  · rw [(leftStep_holdFields s d now).2]; exact h.2

/-- The toggle fragment emits no mouse button press (its only events are
the `_set_mode` releases). -/
theorem leftModeToggle_no_press (s : Drv) (d : List ℕ) (now : ℚ)
    (mb : MBtn) : Ev.mouseKey mb true ∉ (leftModeToggle s d now).2.1 := by
  simp only [leftModeToggle]
  split_ifs <;>
    simp_all [set_mode, release_mouse_buttons, release_gamepad_buttons] <;>
    split_ifs <;> simp_all

/-- With the chord active, the mouse click fragment emits no LEFT or
RIGHT press. -/
theorem leftMouseButtons_no_press (s : Drv) (d : List ℕ)
    (ha : s.leftToggleHoldActive = true) :
    Ev.mouseKey MBtn.left true ∉ (leftMouseButtons s d).2 ∧
    Ev.mouseKey MBtn.right true ∉ (leftMouseButtons s d).2 := by
  simp only [leftMouseButtons, ha, if_true]
  split_ifs <;> simp

/-- The gamepad button fragment writes only pad events, never mouse
keys. -/
theorem leftGamepadButtons_no_mouse (s : Drv) (d : List ℕ) (mb : MBtn)
    (v : Bool) : Ev.mouseKey mb v ∉ (leftGamepadButtons s d).2 := by
  have hgp : ∀ (s' : Drv) (b : GBtn) (p : Bool),
      Ev.mouseKey mb v ∉ (emitGp s' b p).2 := by
    intro s' b p
    simp only [emitGp]
    split_ifs <;> simp
  simp [leftGamepadButtons, hgp]

/-- A full left-side frame with the chord held emits no LEFT or RIGHT
mouse press. -/
theorem leftStep_no_press (s : Drv) (d : List ℕ) (now : ℚ)
    (hc : chordHeld d = true) :
    Ev.mouseKey MBtn.left true ∉ (leftStep s d now).2.1 ∧
    Ev.mouseKey MBtn.right true ∉ (leftStep s d now).2.1 := by
  have ha := leftModeToggle_active s d now hc
  have h1 := leftModeToggle_no_press s d now MBtn.left
  have h2 := leftModeToggle_no_press s d now MBtn.right
  simp only [leftStep]
  split
  · have hm := leftMouseButtons_no_press (leftModeToggle s d now).1 d ha
    simp_all
  · have hg1 := leftGamepadButtons_no_mouse (leftModeToggle s d now).1 d
      MBtn.left true
    have hg2 := leftGamepadButtons_no_mouse (leftModeToggle s d now).1 d
      MBtn.right true
    simp_all

/-- Trace lemma: once latched, no further transition occurs while the
chord stays held. -/
theorem runLeft_latched_aux (frames : List (List ℕ × ℚ)) : ∀ s : Drv,
    s.leftHoldLatched = true → (∀ p ∈ frames, chordHeld p.1 = true) →
    (runLeft s frames).2.2 = 0 := by
  induction frames with
  | nil => intro s _ _; rfl
  | cons p rest ih =>
    intro s hl hc
    obtain ⟨d, t⟩ := p
    have hcd : chordHeld d = true := hc (d, t) (List.mem_cons_self _ _)
    have hstep := leftStep_latched s d t hcd hl
    simp only [runLeft, hstep.1, if_false]
    rw [ih _ hstep.2 fun p hp => hc p (List.mem_cons_of_mem _ hp)]
    simp

/-- Trace lemma: from a stamped, unlatched hold, the transition count is
1 exactly when some frame reaches 1.2 s after the stamp. -/
theorem runLeft_hold_aux (frames : List (List ℕ × ℚ)) :
    ∀ (s : Drv) (t0 : ℚ), 0 < t0 →
    s.leftHoldStart = t0 → s.leftHoldLatched = false →
    (∀ p ∈ frames, chordHeld p.1 = true) →
    (runLeft s frames).2.2
      = (if ∃ p ∈ frames, 6/5 ≤ p.2 - t0 then 1 else 0) := by
  induction frames with
  | nil => intro s t0 _ _ _ _; simp [runLeft]
  | cons p rest ih =>
    intro s t0 ht0 hs hl hc
    obtain ⟨d, t⟩ := p
    have hcd : chordHeld d = true := hc (d, t) (List.mem_cons_self _ _)
    have hrest : ∀ p ∈ rest, chordHeld p.1 = true :=
      fun p hp => hc p (List.mem_cons_of_mem _ hp)
    have h0 : ¬ s.leftHoldStart = 0 := by rw [hs]; exact ne_of_gt ht0
    by_cases hd : 6/5 ≤ t - t0
    · have hstep := leftStep_fire s d t hcd hl h0 (by rw [hs]; exact hd)
      have hex : ∃ p ∈ (d, t) :: rest, 6/5 ≤ p.2 - t0 :=
        ⟨(d, t), List.mem_cons_self _ _, hd⟩
      simp only [runLeft, hstep.1, if_true, if_pos hex]
      rw [runLeft_latched_aux rest _ hstep.2 hrest]
    · have hstep := leftStep_wait s d t hcd hl h0 (by rw [hs]; exact hd)
      have hiff : (∃ p ∈ (d, t) :: rest, 6/5 ≤ p.2 - t0)
          ↔ (∃ p ∈ rest, 6/5 ≤ p.2 - t0) := by
        simp only [List.mem_cons]
        constructor
        · rintro ⟨p, hp | hp, hP⟩
          · rw [hp] at hP; exact absurd hP hd
          · exact ⟨p, hp, hP⟩
        · rintro ⟨p, hp, hP⟩
          exact ⟨p, Or.inr hp, hP⟩
      simp only [runLeft, hstep.1, if_false]
      rw [ih _ t0 ht0 (hstep.2.1.trans hs) hstep.2.2 hrest,
        if_congr hiff rfl rfl]
      simp

/-- Trace lemma: no LEFT/RIGHT press anywhere in a chord-held trace. -/
theorem runLeft_no_press_aux (frames : List (List ℕ × ℚ)) : ∀ s : Drv,
    (∀ p ∈ frames, chordHeld p.1 = true) →
    Ev.mouseKey MBtn.left true ∉ (runLeft s frames).2.1 ∧
    Ev.mouseKey MBtn.right true ∉ (runLeft s frames).2.1 := by
  induction frames with
  | nil => intro s _; simp [runLeft]
  | cons p rest ih =>
    intro s hc
    obtain ⟨d, t⟩ := p
    have hcd : chordHeld d = true := hc (d, t) (List.mem_cons_self _ _)
    have hstep := leftStep_no_press s d t hcd
    have hrest := ih (leftStep s d t).1
      fun p hp => hc p (List.mem_cons_of_mem _ hp)
    simp only [runLeft, List.mem_append]
    constructor
    · intro h
      rcases h with h | h
      · exact hstep.1 h
      · exact hrest.1 h
    · intro h
      rcases h with h | h
      · exact hstep.2 h
      · exact hrest.2 h

/-- C9: over a contiguous L+ZL hold that begins fresh
(`_left_hold_start = 0`, latch clear) at a positive time `t0`, the mode
toggles exactly once, namely iff some later frame arrives at least 1.2 s
after the first held frame (the latch prevents any second toggle within
the hold); and no LEFT or RIGHT mouse press event is emitted anywhere in
a chord-held trace. -/
theorem left_hold_toggle_once :
    (∀ (s0 : Drv) (d0 : List ℕ) (t0 : ℚ) (rest : List (List ℕ × ℚ)),
      chordHeld d0 = true → (∀ p ∈ rest, chordHeld p.1 = true) →
      0 < t0 → s0.leftHoldStart = 0 → s0.leftHoldLatched = false →
      (runLeft s0 ((d0, t0) :: rest)).2.2
        = (if ∃ p ∈ rest, 6/5 ≤ p.2 - t0 then 1 else 0)) ∧
    (∀ (s : Drv) (frames : List (List ℕ × ℚ)),
      (∀ p ∈ frames, chordHeld p.1 = true) →
      Ev.mouseKey MBtn.left true ∉ (runLeft s frames).2.1 ∧
      Ev.mouseKey MBtn.right true ∉ (runLeft s frames).2.1) := by
  constructor
  · intro s0 d0 t0 rest hc0 hcrest ht0 hs0 hl0
    have hstep := leftStep_first s0 d0 t0 hc0 hl0 hs0
    simp only [runLeft, hstep.1, if_false]
    rw [runLeft_hold_aux rest _ t0 ht0 hstep.2.1 hstep.2.2 hcrest]
    simp
  · intro s frames hc
    exact runLeft_no_press_aux frames s hc

/-- Witness for C9: a two-frame hold (face byte `0xC0`) at times 1 s and
2.3 s toggles once (the second frame is 1.3 s ≥ 1.2 s into the hold), and
a held trace emits no LEFT press. -/
theorem left_hold_toggle_once_witness :
    (runLeft initialDrv
        [([0, 0, 0, 0, 0, 0, 0xC0], 1), ([0, 0, 0, 0, 0, 0, 0xC0], 23/10)]).2.2
      = 1 ∧
    Ev.mouseKey MBtn.left true ∉
      (runLeft initialDrv [([0, 0, 0, 0, 0, 0, 0xC0], 1)]).2.1 := by
  constructor
  · rw [left_hold_toggle_once.1 initialDrv [0, 0, 0, 0, 0, 0, 0xC0] 1
      [([0, 0, 0, 0, 0, 0, 0xC0], 23/10)] (by decide)
      (by intro p hp; obtain rfl := List.mem_singleton.mp hp; decide)
      (by norm_num) rfl rfl]
    rw [if_pos ⟨([0, 0, 0, 0, 0, 0, 0xC0], 23/10),
      List.mem_singleton.mpr rfl, by norm_num⟩]
  · exact (left_hold_toggle_once.2 initialDrv [([0, 0, 0, 0, 0, 0, 0xC0], 1)]
      (by intro p hp; obtain rfl := List.mem_singleton.mp hp; decide)).1

/-! ## Supervisor loop watchdogs (`run`, driver.py:1334-1373) -/

/-- The state one 200 ms wake of the supervisor loop reads and writes:
the driver mode, `_last_notif_ts`, `_last_opt_active_ts`,
`_last_opt_warn_ts`, and the loop-local `last_restart`. -/
structure Sup where
  mode : Mode
  lastNotifTs : ℚ
  lastOptActiveTs : ℚ
  lastOptWarnTs : ℚ
  lastRestart : ℚ
  deriving DecidableEq, Repr

/-- The watchdog section of one supervisor wake (driver.py:1351-1373).
Returns the new state, whether the optical-idle warning was printed, and
whether `ensure_notify_and_init` was invoked.  In mouse mode:
`age = (now - _last_notif_ts) if _last_notif_ts else 999`; only when
`age < 0.5` and the optical stream has been inactive for more than 2 s
does it warn (rate-limited to once per 5 s) and retry (rate-limited to
once per 3 s).  In gamepad mode the whole section is skipped. -/
def supervisorTick (s : Sup) (now : ℚ) : Sup × Bool × Bool :=
  if s.mode = Mode.mouse then
    let age : ℚ := if s.lastNotifTs ≠ 0 then now - s.lastNotifTs else 999
    if age < 1/2 ∧ now - s.lastOptActiveTs > 2 then
      let warned := decide (now - s.lastOptWarnTs > 5)
      let s1 := if now - s.lastOptWarnTs > 5
        then { s with lastOptWarnTs := now } else s
      if now - s1.lastRestart > 3 then ({ s1 with lastRestart := now }, warned, true)
      else (s1, warned, false)
    else (s, false, false)
  else (s, false, false)

/-- C6: the optical-idle watchdog never fires in gamepad mode: whatever
the timestamps (hence whatever the optical byte content and notification
ages), a supervisor tick in gamepad mode emits no warning, invokes no
bring-up retry, and changes nothing. -/
theorem optical_watchdog_gamepad_gated (s : Sup) (now : ℚ) :
    supervisorTick { s with mode := Mode.gamepad } now
      = ({ s with mode := Mode.gamepad }, false, false) := by
  simp [supervisorTick]

/-- C1 counterexample: the supervisor has no notification-stall watchdog.
At a tick with mouse mode, last notification 9 s old (`> 2 s`) and last
re-initialisation 10 s old (`> 3 s`), the claim demands a re-invocation of
enable-notifications + optical init, but the code performs no retry (and
no warning, and no state change): its only watchdog requires the
notification age to be below 0.5 s. -/
theorem notif_stall_watchdog_counterexample :
    supervisorTick ⟨Mode.mouse, 1, 0, 0, 0⟩ 10
      = (⟨Mode.mouse, 1, 0, 0, 0⟩, false, false) := by
  norm_num [supervisorTick]

/-- C1 amended: the supervisor loop contains no notification-stall
watchdog.  Whenever more than 2 s have elapsed since the last
notification — exactly the condition under which the claimed stall
watchdog should fire — the tick invokes no bring-up retry, because the
only watchdog (optical idle) requires the notification age to be below
0.5 s. -/
theorem notif_stall_no_retry (s : Sup) (now : ℚ)
    (h : 2 < now - s.lastNotifTs) :
    (supervisorTick s now).2.2 = false := by
  have hage : ¬ ((if s.lastNotifTs ≠ 0 then now - s.lastNotifTs else 999) < 1/2 ∧
      now - s.lastOptActiveTs > 2) := by
    rintro ⟨hlt, _⟩
    by_cases hz : s.lastNotifTs ≠ 0
    · rw [if_pos hz] at hlt; linarith
    · rw [if_neg hz] at hlt; norm_num at hlt
  simp only [supervisorTick]
  split_ifs <;> simp_all

/-- Witness for C1 amended at the stalled state of the counterexample. -/
theorem notif_stall_no_retry_witness :
    (supervisorTick ⟨Mode.mouse, 1, 0, 0, 0⟩ 10).2.2 = false :=
  notif_stall_no_retry ⟨Mode.mouse, 1, 0, 0, 0⟩ 10 (by norm_num)

/-! ## Optical bring-up (`ensure_notify_and_init`, driver.py:588-664) -/

/-- The bring-up attempt schedule (driver.py:628-633):
`[(0.10, False), (0.20, True), (0.35, True), (0.50, True)]`. -/
def attemptSchedule : List (ℚ × Bool) :=
  [(1/10, false), (1/5, true), (7/20, true), (1/2, true)]

/-- The attempt loop of `ensure_notify_and_init` (driver.py:635-664) under
a fault-free transport, driven by two oracles: `notifArrives i` is whether
the 1 s first-notification probe of attempt `i` succeeds, `optActive i`
whether the 0.8 s optical-activity probe succeeds.  The `Except` value is
the Python control flow seen by the caller: an `Except.error` would model
an exception propagating out of the coroutine; the stderr log lines are
collected alongside.  Every path — including exhaustion of the schedule —
returns `Except.ok ()`. -/
def bringupAttempts (notifArrives optActive : ℕ → Bool) :
    ℕ → List (ℚ × Bool) → Except String Unit × List String
  | _, [] => (Except.ok (),
      ["[jc2] ERROR: notifications never started; optical init could not be confirmed."])
  | i, _ :: rest =>
      if notifArrives i then
        if optActive i then (Except.ok (), ["[jc2] Optical stream active."])
        else (Except.ok (),
          ["[jc2] Init sent. Optical may be idle until motion/texture is present."])
      else bringupAttempts notifArrives optActive (i + 1) rest

/-- Embeds `ensure_notify_and_init` (driver.py:588-664): run the attempt schedule
(attempt numbering starts at 1, `enumerate(attempts, 1)`). -/
def ensure_notify_and_init (notifArrives optActive : ℕ → Bool) :
    Except String Unit × List String :=
  bringupAttempts notifArrives optActive 1 attemptSchedule

/-- C2 counterexample: when no notification arrives on any of the four
attempts, `ensure_notify_and_init` returns normally — the value the caller
sees is `Except.ok ()`, identical to the success paths — and the failure
surfaces only as the stderr ERROR log line. -/
theorem bringup_exhaustion_only_logs :
    (ensure_notify_and_init (fun _ => false) (fun _ => false)).1
        = Except.ok () ∧
    "[jc2] ERROR: notifications never started; optical init could not be confirmed."
        ∈ (ensure_notify_and_init (fun _ => false) (fun _ => false)).2 :=
  ⟨rfl, by simp [ensure_notify_and_init, attemptSchedule, bringupAttempts]⟩

/-- Every outcome of the attempt loop is a normal return. -/
theorem bringupAttempts_ok (notifArrives optActive : ℕ → Bool) :
    ∀ (l : List (ℚ × Bool)) (i : ℕ),
    (bringupAttempts notifArrives optActive i l).1 = Except.ok () := by
  intro l
  induction l with
  | nil => intro i; rfl
  | cons a rest ih =>
    intro i
    simp only [bringupAttempts]
    split_ifs <;> simp [ih]

/-- C2 amended: whatever the notification and optical probes report, the
bring-up routine returns normally (`Except.ok ()`); in particular, if no
notification arrives after the full schedule the caller cannot observe the
failure from the returned value or an exception — the non-recoverable
error is reported only as a log line.  (Transport faults, which do raise,
are outside the no-notification scenario the claim describes.) -/
theorem bringup_never_errors (notifArrives optActive : ℕ → Bool) :
    (ensure_notify_and_init notifArrives optActive).1 = Except.ok () :=
  bringupAttempts_ok notifArrives optActive attemptSchedule 1

/-! ## Frame safety (`handle_notification`, driver.py:875-1259)

The handler is re-expressed with every byte read going through the
partial index operation `data[i]? : Option ℕ`; an out-of-range read would
surface as `none`.  The guards of the source are kept exactly; the
arithmetic done on the bytes once read (toggling, calibration, emission)
is modelled by the dedicated definitions above and performs no byte
access. -/

/-- Embeds `self.side` (driver.py:216-220). -/
inductive Side
  | left
  | right
  | unknown
  deriving DecidableEq, Repr

/-- The access-relevant slice of the driver state: the side and the three
configured byte indices, plus the values the handler reads out of the
frame. -/
structure HSafe where
  side : Side
  btnFaceIdx : ℕ
  btnMiscIdx : ℕ
  stickBaseIdx : ℕ
  lastRawB4 : ℕ
  lastRawB5 : ℕ
  stickX12 : ℕ
  stickY12 : ℕ
  optX16 : ℕ
  optY16 : ℕ
  deriving DecidableEq, Repr

/-- Embeds `btn_pressed` with the byte read made partial: the short-circuit
`len(data) > byte_idx and data[byte_idx] & mask != 0` guards the access,
and an absent byte yields `False`. -/
def btnPressedOpt (data : List ℕ) (idx mask : ℕ) : Option Bool :=
  if idx < data.length then
    (data[idx]?).map (fun b => decide (b &&& mask ≠ 0))
  else some false

/-- The fallback side-inference stage (driver.py:881-897): only when the
side is unknown and `len(data) >= 7`, read bytes 4 and 6 and classify. -/
def sideInferOpt (s : HSafe) (data : List ℕ) : Option HSafe :=
  if s.side = Side.unknown ∧ 7 ≤ data.length then
    match data[4]?, data[6]? with
    | some b4, some b6 =>
        let leftHint := decide (b6 &&& 0x0F ≠ 0) || decide (b6 &&& 0xC0 ≠ 0)
          || decide (b6 &&& 0x30 ≠ 0)
        let rightHint := decide (b4 &&& 0x0F ≠ 0) || decide (b4 &&& 0xF0 ≠ 0)
        if leftHint && !rightHint then
          some { s with side := Side.left, btnFaceIdx := 6, btnMiscIdx := 5,
                        stickBaseIdx := 10 }
        else if rightHint && !leftHint then
          some { s with side := Side.right, btnFaceIdx := 4, btnMiscIdx := 5,
                        stickBaseIdx := 13 }
        else some s
    | _, _ => none
  else some s

/-- The raw-byte telemetry stage (driver.py:902-905): record bytes 4 and 5
when present. -/
def recordRawOpt (s : HSafe) (data : List ℕ) : Option HSafe :=
  (if 4 < data.length then
    match data[4]? with
    | some b => some { s with lastRawB4 := b }
    | none => none
  else some s).bind fun s1 =>
    if 5 < data.length then
      match data[5]? with
      | some b => some { s1 with lastRawB5 := b }
      | none => none
    else some s1

/-- All the bit tests the handler performs on the configured misc/face
bytes (mode toggle, driver.py:907-937, and the per-mode button reads,
driver.py:953-1077), each length-guarded via `btnPressedOpt`. -/
def buttonReadsOpt (s : HSafe) (data : List ℕ) : Option HSafe :=
  if s.side ≠ Side.left then do
    let _ ← btnPressedOpt data s.btnMiscIdx 0x40
    let _ ← btnPressedOpt data 4 0x08
    let _ ← btnPressedOpt data 4 0x04
    let _ ← btnPressedOpt data 4 0x02
    let _ ← btnPressedOpt data 4 0x01
    let _ ← btnPressedOpt data 4 0x10
    let _ ← btnPressedOpt data 4 0x20
    let _ ← btnPressedOpt data 4 0x40
    let _ ← btnPressedOpt data 4 0x80
    let _ ← btnPressedOpt data 5 0x10
    let _ ← btnPressedOpt data 5 0x04
    let _ ← btnPressedOpt data 5 0x02
    some s
  else do
    let _ ← btnPressedOpt data s.btnFaceIdx 0x40
    let _ ← btnPressedOpt data s.btnFaceIdx 0x80
    let _ ← btnPressedOpt data s.btnMiscIdx 0x01
    let _ ← btnPressedOpt data s.btnMiscIdx 0x08
    let _ ← btnPressedOpt data s.btnMiscIdx 0x20
    let _ ← btnPressedOpt data s.btnFaceIdx 0x01
    let _ ← btnPressedOpt data s.btnFaceIdx 0x02
    let _ ← btnPressedOpt data s.btnFaceIdx 0x04
    let _ ← btnPressedOpt data s.btnFaceIdx 0x08
    let _ ← btnPressedOpt data s.btnFaceIdx 0x10
    let _ ← btnPressedOpt data s.btnFaceIdx 0x20
    some s

/-- The stick stage of `_decode_stick_and_calibrate` (driver.py:724-741):
when `len(data) <= base + 2` the stage is skipped (`None` return in the
source, meaning no stick processing); otherwise the three stick bytes are
read and unpacked. -/
def stickDecodeOpt (s : HSafe) (data : List ℕ) : Option HSafe :=
  if data.length ≤ s.stickBaseIdx + 2 then some s
  else
    match data[s.stickBaseIdx]?, data[s.stickBaseIdx + 1]?,
        data[s.stickBaseIdx + 2]? with
    | some b0, some b1, some b2 =>
        some { s with stickX12 := (decode_stick_12 b0 b1 b2).1,
                      stickY12 := (decode_stick_12 b0 b1 b2).2 }
    | _, _, _ => none

/-- The optical stage of `_handle_optical_motion` (driver.py:1217-1229):
skipped when `len(data) < 0x0F + 5`; otherwise the 5-byte slice is read
and the two 16-bit counters formed. -/
def opticalOpt (s : HSafe) (data : List ℕ) : Option HSafe :=
  if data.length < 0x0F + 5 then some s
  else
    match data[0x0F]?, data[0x10]?, data[0x11]?, data[0x12]?, data[0x13]? with
    | some o0, some o1, some o2, some o3, some o4 =>
        some { s with optX16 := u16_from_opt [o0, o1, o2, o3, o4] 1 2,
                      optY16 := u16_from_opt [o0, o1, o2, o3, o4] 3 4 }
    | _, _, _, _, _ => none

/-- Every byte access of one `handle_notification` call, in source order,
with each read partial. -/
def handleNotificationSafe (s : HSafe) (data : List ℕ) : Option HSafe := do
  let s1 ← sideInferOpt s data
  let s2 ← recordRawOpt s1 data
  let s3 ← buttonReadsOpt s2 data
  let s4 ← stickDecodeOpt s3 data
  opticalOpt s4 data

/-- A guarded bit test never dereferences out of range. -/
theorem btnPressedOpt_isSome (data : List ℕ) (idx mask : ℕ) :
    (btnPressedOpt data idx mask).isSome := by
  simp only [btnPressedOpt]
  split
  · rename_i h
    rw [List.getElem?_eq_getElem h]
    rfl
  · rfl

/-- The side-inference stage never dereferences out of range. -/
theorem sideInferOpt_isSome (s : HSafe) (data : List ℕ) :
    (sideInferOpt s data).isSome := by
  simp only [sideInferOpt]
  split
  · rename_i h
    have h4 : 4 < data.length := by omega
    have h6 : 6 < data.length := by omega
    rw [List.getElem?_eq_getElem h4, List.getElem?_eq_getElem h6]
    dsimp only
    split_ifs <;> rfl
  · rfl

/-- The raw-byte stage never dereferences out of range. -/
theorem recordRawOpt_isSome (s : HSafe) (data : List ℕ) :
    (recordRawOpt s data).isSome := by
  simp only [recordRawOpt]
  split
  · rename_i h4
    rw [List.getElem?_eq_getElem h4]
    simp only [Option.some_bind]
    split
    · rename_i h5
      rw [List.getElem?_eq_getElem h5]
      rfl
    · rfl
  · simp only [Option.some_bind]
    split
    · rename_i h5
      rw [List.getElem?_eq_getElem h5]
      rfl
    · rfl

/-- The button stage never dereferences out of range. -/
theorem buttonReadsOpt_isSome (s : HSafe) (data : List ℕ) :
    (buttonReadsOpt s data).isSome := by
  have hb : ∀ idx mask, ∃ b, btnPressedOpt data idx mask = some b := by
    intro idx mask
    exact Option.isSome_iff_exists.mp (btnPressedOpt_isSome data idx mask)
  simp only [buttonReadsOpt]
  split <;>
  · obtain ⟨b1, e1⟩ := hb s.btnMiscIdx 0x40
    obtain ⟨b2, e2⟩ := hb s.btnFaceIdx 0x40
    obtain ⟨b3, e3⟩ := hb s.btnFaceIdx 0x80
    obtain ⟨b4, e4⟩ := hb s.btnMiscIdx 0x01
    obtain ⟨b5, e5⟩ := hb s.btnMiscIdx 0x08
    obtain ⟨b6, e6⟩ := hb s.btnMiscIdx 0x20
    obtain ⟨c1, f1⟩ := hb 4 0x08
    obtain ⟨c2, f2⟩ := hb 4 0x04
    obtain ⟨c3, f3⟩ := hb 4 0x02
    obtain ⟨c4, f4⟩ := hb 4 0x01
    obtain ⟨c5, f5⟩ := hb 4 0x10
    obtain ⟨c6, f6⟩ := hb 4 0x20
    obtain ⟨c7, f7⟩ := hb 4 0x40
    obtain ⟨c8, f8⟩ := hb 4 0x80
    obtain ⟨d1, g1⟩ := hb 5 0x10
    obtain ⟨d2, g2⟩ := hb 5 0x04
    obtain ⟨d3, g3⟩ := hb 5 0x02
    obtain ⟨m1, k1⟩ := hb s.btnFaceIdx 0x01
    obtain ⟨m2, k2⟩ := hb s.btnFaceIdx 0x02
    obtain ⟨m3, k3⟩ := hb s.btnFaceIdx 0x04
    obtain ⟨m4, k4⟩ := hb s.btnFaceIdx 0x08
    obtain ⟨m5, k5⟩ := hb s.btnFaceIdx 0x10
    obtain ⟨m6, k6⟩ := hb s.btnFaceIdx 0x20
    simp [e1, e2, e3, e4, e5, e6, f1, f2, f3, f4, f5, f6, f7, f8,
      g1, g2, g3, k1, k2, k3, k4, k5, k6]

/-- The stick stage never dereferences out of range. -/
theorem stickDecodeOpt_isSome (s : HSafe) (data : List ℕ) :
    (stickDecodeOpt s data).isSome := by
  simp only [stickDecodeOpt]
  split
  · rfl
  · rename_i h
    have h0 : s.stickBaseIdx < data.length := by omega
    have h1 : s.stickBaseIdx + 1 < data.length := by omega
    have h2 : s.stickBaseIdx + 2 < data.length := by omega
    rw [List.getElem?_eq_getElem h0, List.getElem?_eq_getElem h1,
      List.getElem?_eq_getElem h2]
    rfl

/-- The optical stage never dereferences out of range. -/
theorem opticalOpt_isSome (s : HSafe) (data : List ℕ) :
    (opticalOpt s data).isSome := by
  simp only [opticalOpt]
  split
  · rfl
  · rename_i h
    have h0 : 0x0F < data.length := by omega
    have h1 : 0x10 < data.length := by omega
    have h2 : 0x11 < data.length := by omega
    have h3 : 0x12 < data.length := by omega
    have h4 : 0x13 < data.length := by omega
    rw [List.getElem?_eq_getElem h0, List.getElem?_eq_getElem h1,
      List.getElem?_eq_getElem h2, List.getElem?_eq_getElem h3,
      List.getElem?_eq_getElem h4]
    rfl

/-- C10: for every incoming frame of any byte length and any handler
state, the notification handler performs no out-of-range byte access —
every read is length-guarded and absent stages are skipped — and a button
test whose byte is absent returns `false` (both in the partial model and
in the total `btn_pressed` the dispatch code uses). -/
theorem handle_notification_inrange :
    (∀ (s : HSafe) (data : List ℕ),
      (handleNotificationSafe s data).isSome = true) ∧
    (∀ (data : List ℕ) (idx mask : ℕ), data.length ≤ idx →
      btnPressedOpt data idx mask = some false ∧
      btn_pressed data idx mask = false) := by
  constructor
  · intro s data
    obtain ⟨s1, e1⟩ := Option.isSome_iff_exists.mp (sideInferOpt_isSome s data)
    obtain ⟨s2, e2⟩ := Option.isSome_iff_exists.mp (recordRawOpt_isSome s1 data)
    obtain ⟨s3, e3⟩ := Option.isSome_iff_exists.mp (buttonReadsOpt_isSome s2 data)
    obtain ⟨s4, e4⟩ := Option.isSome_iff_exists.mp (stickDecodeOpt_isSome s3 data)
    obtain ⟨s5, e5⟩ := Option.isSome_iff_exists.mp (opticalOpt_isSome s4 data)
    simp [handleNotificationSafe, e1, e2, e3, e4, e5]
  · intro data idx mask h
    constructor
    · simp [btnPressedOpt, Nat.not_lt.mpr h]
    · simp [btn_pressed, Nat.not_lt.mpr h]

/-- Witness for C10: a 3-byte frame (shorter than every stage's guard)
through the fresh right-configured state, and an absent-byte button test. -/
theorem handle_notification_inrange_witness :
    (handleNotificationSafe
        ⟨Side.unknown, 4, 5, 13, 0, 0, 0, 0, 0, 0⟩ [1, 2, 3]).isSome = true ∧
    btn_pressed [1, 2, 3] 4 0x40 = false :=
  ⟨handle_notification_inrange.1 ⟨Side.unknown, 4, 5, 13, 0, 0, 0, 0, 0, 0⟩
      [1, 2, 3],
   (handle_notification_inrange.2 [1, 2, 3] 4 0x40 (by norm_num)).2⟩

end JC2
